import Mathlib

/-!
Verification of the mcp-kdenlive orchestration layer.

Shallow embedding of the composite-workflow orchestration code of the
`mcp-kdenlive` repository (`src/mcp_kdenlive/tools/composite.py`,
`src/mcp_kdenlive/tools/checkpoints.py`) and proofs of the spec claims
about it.

The external Kdenlive engine (the `kdenlive_api` D-Bus layer, an external
collaborator of this repository) is modelled as an explicit state machine
`Engine`.  Calls whose outcome is decided by the environment (which clip
ids an import creates, whether an insert or a mix succeeds, which duration
a placed clip reports) are driven by explicit response scripts stored in
the state, so that every behaviour the orchestrator must tolerate is
representable.  Clip identifiers, which are numeric strings on the wire
(the code sorts them with `key=int`), are modelled as naturals.

The orchestration logic itself (`build_timeline`, `replace_scene`,
`checkpoint_save`, `checkpoint_restore`) is translated line by line from
the Python source.
-/

/-- Byte-wise (code-point) comparison of character lists, mirroring
Python's lexicographic string comparison used by `sorted(files)`. -/
def charsLe : List Char → List Char → Bool
  | [], _ => true
  | _ :: _, [] => false
  | a :: as, b :: bs => if a = b then charsLe as bs else decide (a < b)

/-- Lexicographic string order, as a boolean. -/
def strLe (a b : String) : Bool := charsLe a.data b.data

/-- Numeric ascending sort, mirroring Python's `sorted(ids, key=int)`. -/
def sortNat (l : List Nat) : List Nat := List.insertionSort (· ≤ ·) l

/-- Lexicographic sort of path strings, mirroring Python's `sorted(files)`. -/
def sortFiles (l : List String) : List String :=
  List.insertionSort (fun a b => strLe a b = true) l

/-- Final path component, mirroring Python's `os.path.basename`: the
characters after the last slash. -/
def basename (p : String) : String :=
  ⟨p.data.foldl (fun acc c => if c = '/' then [] else acc ++ [c]) []⟩

/-- Lookup in an insertion-ordered association list, mirroring a Python
`dict` read. -/
def dictGet {α : Type} : List (String × α) → String → Option α
  | [], _ => none
  | (a, b) :: t, k => if a = k then some b else dictGet t k

/-- Update of an insertion-ordered association list, mirroring a Python
`dict` write: an existing key keeps its position, a new key is appended. -/
def dictSet {α : Type} : List (String × α) → String → α → List (String × α)
  | [], k, v => [(k, v)]
  | (a, b) :: t, k, v => if a = k then (a, v) :: t else (a, b) :: dictSet t k v

/-! ## Resource Discovery Protocol (§4.1)

`composite.py` discovers the identifier of a freshly imported clip by
snapshotting the clip-id set before and after the import call:

```python
new = ids_after - ids_before
if new:
    bid = sorted(new, key=int)[0]
```
-/

/-- The set difference `ids_after - ids_before`, as the sub-list of `after`
whose elements do not occur in `before` (element-wise identical to the
Python set difference; duplicates, which real id snapshots do not contain,
do not affect emptiness or the minimum). -/
def newIds (before after : List Nat) : List Nat :=
  after.filter (fun i => !(before.contains i))

/-- Resource discovery step of `build_timeline` and `replace_scene`
(`composite.py` lines 59-67 and 218-226): the numerically lowest element of
`after - before`, or `none` when the difference is empty. -/
def discoverNewResource (before after : List Nat) : Option Nat :=
  (sortNat (newIds before after)).head?

/-! ## The external engine model (§6)

State of the target Kdenlive instance as seen through the D-Bus primitives
that `composite.py` calls.  Outcomes that the environment decides are
driven by response scripts carried in the state. -/

/-- A clip placed on a timeline track (`PlacedItem` in the spec). -/
structure TLClip where
  id : Nat
  track : Nat
  pos : Nat
  dur : Nat
  name : String
deriving DecidableEq, Repr

/-- A timeline track (`Container` in the spec), as reported by
`GetAllTracksInfo`: id, position, audio flag, name. -/
structure Track where
  id : Nat
  position : Nat
  audio : Bool
  name : String
deriving DecidableEq, Repr

/-- Result of `get_timeline_clip_info`. -/
structure ClipInfo where
  position : Nat
  duration : Nat
  name : String
deriving DecidableEq, Repr

/-- A mutating primitive call issued against the target engine.  Pure
queries (`get_all_clip_ids`, `get_clips_on_track`, `get_timeline_clip_info`,
`GetAllTracksInfo`) are not traced. -/
inductive Call where
  | importClip (path : String)
  | insertClip (binId : Nat) (track : Nat) (pos : Nat)
  | deleteClip (clipId : Nat)
  | resizeClip (clipId : Nat) (dur : Nat) (fromEnd : Bool)
  | addMix (a b : Nat) (dur : Int)
  | addTrack (name : String) (audio : Bool)
deriving DecidableEq, Repr

/-- The external engine state.  `binClips` maps clip id to the media-pool
folder holding it ("-1" is the root folder).  `importScript`,
`insertScript` and `mixScript` are the environment's scripted responses to
`addProjectClip`, `insert_clip` and `add_mix`; `infoFail` lists clip ids
for which `get_timeline_clip_info` returns nothing.  `globFiles` is the
operating system's answer to the directory glob in `build_timeline`. -/
structure Engine where
  binClips : List (Nat × String)
  tracks : List Track
  timeline : List TLClip
  globFiles : List String
  importScript : List (List Nat)
  insertScript : List (Option (Nat × Nat))
  mixScript : List Bool
  infoFail : List Nat
  nextTrackId : Nat
deriving DecidableEq, Repr

/-- Engine call `get_all_clip_ids`: the full resource-identifier snapshot. -/
def Engine.allClipIds (e : Engine) : List Nat := e.binClips.map Prod.fst

/-- Engine call `get_folder_clip_ids(folder)`: ids of the clips in one media-pool
folder. -/
def Engine.folderClipIds (e : Engine) (folder : String) : List Nat :=
  (e.binClips.filter (fun c => c.2 == folder)).map Prod.fst

/-- Engine call `addProjectClip(path)`: fire-and-forget import.  The ids the call
creates (possibly none — a failed or duplicate import) are the head of
the response script for imports; fresh clips land in the root folder. -/
def Engine.addProjectClip (e : Engine) : Engine :=
  match e.importScript with
  | [] => e
  | ids :: rest =>
    { e with binClips := e.binClips ++ ids.map (fun i => (i, "-1")),
             importScript := rest }

/-- Engine call `get_timeline_clip_info(clip_id)`: position, duration and name of a
placed clip, or nothing when the engine fails to answer (ids in
`infoFail`) or the clip does not exist. -/
def Engine.clipInfo (e : Engine) (cid : Nat) : Option ClipInfo :=
  if e.infoFail.contains cid then none
  else
    match e.timeline.find? (fun c => c.id == cid) with
    | some c => some ⟨c.pos, c.dur, c.name⟩
    | none => none

/-- Engine call `get_clips_on_track(track_id)`: the placements on one track in
position order (§4.3 step 2 enumerates placements in position order). -/
def Engine.clipsOnTrack (e : Engine) (tid : Nat) : List TLClip :=
  List.insertionSort (fun a b => a.pos ≤ b.pos)
    (e.timeline.filter (fun c => c.track == tid))

/-- Engine call `insert_clip(bin_id, track_id, position)`: returns the new timeline
clip id, or a negative value on failure.  The environment decides the
outcome and the placed clip's duration through the insert script; an
exhausted script also fails the call. -/
def Engine.insertClip (e : Engine) (binId track pos : Nat) : Int × Engine :=
  match e.insertScript with
  | [] => (-1, e)
  | none :: rest => (-1, { e with insertScript := rest })
  | some (cid, d) :: rest =>
    ((cid : Int),
     { e with insertScript := rest,
              timeline := e.timeline ++ [⟨cid, track, pos, d, ""⟩] })

/-- Engine call `delete_timeline_clip(clip_id)`: removes the placement.  The returned
boolean is ignored by `replace_scene`. -/
def Engine.deleteClip (e : Engine) (cid : Nat) : Engine :=
  { e with timeline := e.timeline.filter (fun c => c.id != cid) }

/-- Engine call `resize_clip(clip_id, duration, from_end)`: sets the placement's
duration. -/
def Engine.resizeClip (e : Engine) (cid dur : Nat) : Engine :=
  { e with timeline :=
      e.timeline.map (fun c => if c.id == cid then { c with dur := dur } else c) }

/-- Engine call `add_mix(a, b, duration)`: pairwise transition; the environment
decides success through the mix script. -/
def Engine.addMixCall (e : Engine) : Bool × Engine :=
  match e.mixScript with
  | [] => (false, e)
  | b :: rest => (b, { e with mixScript := rest })

/-- Engine call `add_track(name, audio)`: creates a track and returns its id. -/
def Engine.addTrack (e : Engine) (name : String) (audio : Bool) : Nat × Engine :=
  (e.nextTrackId,
   { e with tracks := e.tracks ++ [⟨e.nextTrackId, e.tracks.length, audio, name⟩],
            nextTrackId := e.nextTrackId + 1 })

/-- Strict lexicographic order on (position, id) pairs, mirroring Python's
tuple comparison in `video_tracks.sort()`. -/
def lexLt (a b : Nat × Nat) : Bool :=
  decide (a.1 < b.1) || (a.1 == b.1 && decide (a.2 < b.2))

/-- First video track selection of `build_timeline` and `replace_scene`
(`composite.py` lines 93-106 and 186-198): collect (position, id) of the
non-audio tracks, sort, take the first; the fold returns the first
lexicographically minimal pair, which is what a stable sort followed by
`[0]` yields. -/
def selectVideoTrack (tracks : List Track) : Option Nat :=
  match (tracks.filter (fun t => !t.audio)).map (fun t => (t.position, t.id)) with
  | [] => none
  | v :: rest => some (rest.foldl (fun acc p => if lexLt p acc then p else acc) v).2

/-- First audio track in raw `GetAllTracksInfo` order (`composite.py`
lines 149-153). -/
def firstAudioTrack (tracks : List Track) : Option Nat :=
  (tracks.find? (fun t => t.audio)).map (fun t => t.id)

/-! ## Single-item replacement workflow: `replace_scene` -/

/-- Recorded position of the existing item (`composite.py` line 214):
defaults to 0 when the info query returns nothing. -/
def recordedStart (e : Engine) (cid : Nat) : Nat :=
  match e.clipInfo cid with
  | some i => i.position
  | none => 0

/-- Recorded duration of the existing item (`composite.py` line 215):
defaults to 0 when the info query returns nothing. -/
def recordedDur (e : Engine) (cid : Nat) : Nat :=
  match e.clipInfo cid with
  | some i => i.duration
  | none => 0

/-- Recorded name of the existing item (`composite.py` line 216). -/
def recordedName (e : Engine) (cid : Nat) : String :=
  match e.clipInfo cid with
  | some i => i.name
  | none => "clip-" ++ toString cid

/-- Outcome of `replace_scene`; one constructor per `return` statement of
the Python function. -/
inductive ReplaceResult where
  | errNoVideoTrack
  | errEmptyTrack
  | errOutOfRange (scene : Int) (count : Nat)
  | errImportFailed (file : String)
  | errDeletedNotInserted (scene : Int)
  | ok (scene : Int) (oldName : String) (oldId : Nat) (newFile : String)
       (newId : Nat) (pos : Nat)
deriving DecidableEq, Repr

/-- The literal message of each error return of `replace_scene` (the
success message interpolates a timecode produced by the external
`kdenlive_api.utils` formatter, so it is not rendered here). -/
def ReplaceResult.renderErr : ReplaceResult → Option String
  | .errNoVideoTrack => some "ERROR: No video track found."
  | .errEmptyTrack => some "ERROR: Video track is empty."
  | .errOutOfRange n count =>
    some ("ERROR: Scene " ++ toString n ++ " out of range (1-" ++ toString count ++ ").")
  | .errImportFailed f => some ("ERROR: Could not import " ++ f)
  | .errDeletedNotInserted n =>
    some ("ERROR: Deleted scene " ++ toString n ++ " but failed to insert replacement.")
  | .ok _ _ _ _ _ _ => none

/-- Result, final engine state, and trace of mutating calls of one
workflow run. -/
structure ReplaceOut where
  result : ReplaceResult
  engine : Engine
  trace : List Call
deriving DecidableEq, Repr

/-- Placeholder clip for the guarded list index (never selected: the index
is bounds-checked first). -/
def dummyClip : TLClip := ⟨0, 0, 0, 0, ""⟩

/-- Body of `replace_scene` after the fail-fast checks (`composite.py`
lines 211-244): record the old item's placement, import the new file and
discover its id, delete the old placement, insert the replacement at the
recorded position, and resize it when a positive duration was recorded. -/
def replaceCore (e : Engine) (vid : Nat) (clip : TLClip) (scene_number : Int)
    (new_file : String) : ReplaceOut :=
  let oldId := clip.id
  let old_start := recordedStart e oldId
  let old_dur := recordedDur e oldId
  let old_name := recordedName e oldId
  let e1 := e.addProjectClip
  match discoverNewResource e.allClipIds e1.allClipIds with
  | none => ⟨.errImportFailed new_file, e1, [.importClip new_file]⟩
  | some newBin =>
    let e2 := e1.deleteClip oldId
    let ins := e2.insertClip newBin vid old_start
    if ins.1 < 0 then
      ⟨.errDeletedNotInserted scene_number, ins.2,
       [.importClip new_file, .deleteClip oldId, .insertClip newBin vid old_start]⟩
    else
      let newId := ins.1.toNat
      if old_dur > 0 then
        ⟨.ok scene_number old_name oldId new_file newId old_start,
         ins.2.resizeClip newId old_dur,
         [.importClip new_file, .deleteClip oldId, .insertClip newBin vid old_start,
          .resizeClip newId old_dur true]⟩
      else
        ⟨.ok scene_number old_name oldId new_file newId old_start, ins.2,
         [.importClip new_file, .deleteClip oldId, .insertClip newBin vid old_start]⟩

/-- Tool `replace_scene(scene_number, new_file)` (`composite.py` lines 166-246):
find the first video track, enumerate its clips, bounds-check the 1-based
ordinal, then run the replacement body. -/
def replace_scene (e : Engine) (scene_number : Int) (new_file : String) : ReplaceOut :=
  match selectVideoTrack e.tracks with
  | none => ⟨.errNoVideoTrack, e, []⟩
  | some vid =>
    let clips := e.clipsOnTrack vid
    if clips.isEmpty then ⟨.errEmptyTrack, e, []⟩
    else
      let idx : Int := scene_number - 1
      if idx < 0 ∨ (clips.length : Int) ≤ idx then
        ⟨.errOutOfRange scene_number clips.length, e, []⟩
      else
        replaceCore e vid (clips.getD idx.toNat dummyClip) scene_number new_file

/-- Engine with one video track holding one clip (a typical small
project), used to exercise the replacement workflow. -/
def cx3aEngine : Engine :=
  { binClips := [(7, "-1")], tracks := [⟨1, 0, false, "V1"⟩],
    timeline := [⟨21, 1, 0, 50, "scene1"⟩], globFiles := [],
    importScript := [], insertScript := [], mixScript := [], infoFail := [],
    nextTrackId := 2 }

/-- Engine for the C4 witness: one clip placed, and an import script whose
next response creates no clip id — discovery fails. -/
def cx4Engine : Engine :=
  { binClips := [(7, "-1")], tracks := [⟨1, 0, false, "V1"⟩],
    timeline := [⟨21, 1, 0, 50, "scene1"⟩], globFiles := [],
    importScript := [[]], insertScript := [], mixScript := [], infoFail := [],
    nextTrackId := 2 }

/-- Engine for the C5 witness: one clip placed, an import that creates
clip 9, and an insert script that fails the insertion. -/
def cx5Engine : Engine :=
  { binClips := [(7, "-1")], tracks := [⟨1, 0, false, "V1"⟩],
    timeline := [⟨21, 1, 0, 50, "scene1"⟩], globFiles := [],
    importScript := [[9]], insertScript := [none], mixScript := [], infoFail := [],
    nextTrackId := 2 }

/-- Engine for the C3 counterexample: a video track exists but holds no
clips. -/
def cx3Engine : Engine :=
  { binClips := [], tracks := [⟨1, 0, false, "V1"⟩], timeline := [], globFiles := [],
    importScript := [], insertScript := [], mixScript := [], infoFail := [],
    nextTrackId := 2 }

/-- Engine for the C10 witness: one clip placed whose info query fails
(id 21 is in `infoFail`), an import creating clip 9, and an insert that
succeeds as timeline clip 30 with duration 80. -/
def cx10Engine : Engine :=
  { binClips := [(7, "-1")], tracks := [⟨1, 0, false, "V1"⟩],
    timeline := [⟨21, 1, 40, 50, "scene1"⟩], globFiles := [],
    importScript := [[9]], insertScript := [some (30, 80)], mixScript := [],
    infoFail := [21], nextTrackId := 2 }

/-! ## Full-assembly workflow: `build_timeline`

Translation of `composite.py` lines 18-163.  The caller-supplied
parameters of the Python tool are collected in `BuildArgs`; the directory
glob's answer lives in the engine state (`globFiles`). -/

/-- The caller-supplied parameters of `build_timeline`. -/
structure BuildArgs where
  video_dir : String
  pattern : String
  audio_path : String
  transition_frames : Int
  folder_name : String
deriving DecidableEq, Repr

/-- Outcome of `build_timeline`; one constructor per `return` statement
(`errNoneAvailable` corresponds to the `"ERROR: No clips available."`
return, which is unreachable because the fallback list is non-empty). -/
inductive BuildResult where
  | errNoFiles (pattern video_dir : String)
  | errNoBin
  | errNoneAvailable (log : List String)
  | errNonePlaced (log : List String)
  | ok (log : List String)
deriving DecidableEq, Repr

/-- Result, final engine state, trace of mutating calls, and the internal
`tl_clip_ids` accumulator (the successfully placed timeline clip ids) of a
`build_timeline` run. -/
structure BuildOut where
  result : BuildResult
  engine : Engine
  trace : List Call
  placed : List Nat
deriving DecidableEq, Repr

/-- Accumulated state of the import phase. -/
structure ImportPhase where
  engine : Engine
  trace : List Call
  imported : List (String × Nat)
  alreadyPresent : List String
deriving DecidableEq, Repr

/-- Import loop of `build_timeline` (`composite.py` lines 59-69): one
`addProjectClip` per file, with before/after snapshot discovery; a file
with no discovered id goes to the `already_present` list. -/
def importLoop : Engine → List String → ImportPhase
  | e, [] => ⟨e, [], [], []⟩
  | e, f :: rest =>
    let e1 := e.addProjectClip
    let r := importLoop e1 rest
    match discoverNewResource e.allClipIds e1.allClipIds with
    | some bid =>
      ⟨r.engine, .importClip f :: r.trace, (basename f, bid) :: r.imported,
       r.alreadyPresent⟩
    | none =>
      ⟨r.engine, .importClip f :: r.trace, r.imported, basename f :: r.alreadyPresent⟩

/-- Duration of a placed clip as the engine reports it after insertion
(`composite.py` line 123: `int(info.get("duration", 0)) if info else 0`). -/
def reportedDuration (e : Engine) (cid : Nat) : Nat :=
  match e.clipInfo cid with
  | some i => i.duration
  | none => 0

/-- Cursor step of the placement loop (`composite.py` line 124:
`position += dur if dur > 0 else 125`).  The 125-frame fallback is a
hard-coded literal of the source. -/
def cursorAdvance (dur : Nat) : Nat := if dur > 0 then dur else 125

/-- Accumulated state of the placement phase. -/
structure PlacePhase where
  engine : Engine
  trace : List Call
  placed : List Nat
  log : List String
deriving DecidableEq, Repr

/-- Placement loop of `build_timeline` (`composite.py` lines 112-125):
insert each imported clip at the cursor, skip (and log) failures, and
advance the cursor by the reported duration, or by 125 when the report is
0 or missing. -/
def placeLoop (vid : Nat) : Engine → List (String × Nat) → Nat → PlacePhase
  | e, [], _ => ⟨e, [], [], []⟩
  | e, (name, bid) :: rest, pos =>
    let ins := e.insertClip bid vid pos
    if ins.1 < 0 then
      let r := placeLoop vid ins.2 rest pos
      ⟨r.engine, .insertClip bid vid pos :: r.trace, r.placed,
       ("  SKIP " ++ name ++ ": insert failed") :: r.log⟩
    else
      let cid := ins.1.toNat
      let dur := reportedDuration ins.2 cid
      let r := placeLoop vid ins.2 rest (pos + cursorAdvance dur)
      ⟨r.engine, .insertClip bid vid pos :: r.trace, cid :: r.placed,
       ("  " ++ name ++ " → clip_id " ++ toString cid ++ ", " ++ toString dur
         ++ "f at pos " ++ toString pos) :: r.log⟩

/-- The adjacent pairs of the placed clips, in placement order. -/
def adjPairs (l : List Nat) : List (Nat × Nat) := l.zip l.tail

/-- Accumulated state of the transitions phase. -/
structure MixPhase where
  engine : Engine
  trace : List Call
  count : Nat
deriving DecidableEq, Repr

/-- Transition loop of `build_timeline` (`composite.py` lines 133-138):
one `add_mix` per adjacent pair, counting successes and never breaking out
of the loop. -/
def mixLoop (tf : Int) : Engine → List (Nat × Nat) → MixPhase
  | e, [] => ⟨e, [], 0⟩
  | e, (a, b) :: rest =>
    let m := e.addMixCall
    let r := mixLoop tf m.2 rest
    ⟨r.engine, .addMix a b tf :: r.trace, (if m.1 then 1 else 0) + r.count⟩

/-- Video-track resolution of the assembly phase (`composite.py` lines
93-110): the first video track, or a freshly created "V1" when none
exists.  Returns (track id, engine, trace so far). -/
def pickVideoTrack (e : Engine) (trace : List Call) : Nat × Engine × List Call :=
  match selectVideoTrack e.tracks with
  | some vid => (vid, e, trace)
  | none =>
    let nt := e.addTrack "V1" false
    (nt.1, nt.2, trace ++ [.addTrack "V1" false])

/-- Transitions phase (`composite.py` lines 131-139): when a positive
transition duration was requested and at least two clips were placed, one
`add_mix` per adjacent pair, plus the summary log line.  Returns (engine,
calls of this phase, log lines of this phase). -/
def transitionsPhase (tf : Int) (placed : List Nat) (e : Engine) :
    Engine × List Call × List String :=
  if 0 < tf ∧ 2 ≤ placed.length then
    let mp := mixLoop tf e (adjPairs placed)
    (mp.engine, mp.trace,
     ["**Transitions:** " ++ toString mp.count ++ " dissolves ("
       ++ toString tf ++ "f each)"])
  else (e, [], [])

/-- Audio phase (`composite.py` lines 142-159): import the audio file with
snapshot discovery, then insert the discovered clip at position 0 on the
first audio track of the track snapshot (creating "A1" when none exists).
Returns (engine, calls of this phase, log lines of this phase). -/
def audioPhase (audio_path : String) (tracksSnapshot : List Track) (e : Engine) :
    Engine × List Call × List String :=
  if audio_path = "" then (e, [], [])
  else
    let e4 := e.addProjectClip
    match discoverNewResource e.allClipIds e4.allClipIds with
    | some aid =>
      let at2 : Nat × Engine × List Call :=
        match firstAudioTrack tracksSnapshot with
        | some atid => (atid, e4, [.importClip audio_path])
        | none =>
          let nt := e4.addTrack "A1" true
          (nt.1, nt.2, [.importClip audio_path, .addTrack "A1" true])
      let ins := at2.2.1.insertClip aid at2.1 0
      (ins.2, at2.2.2 ++ [.insertClip aid at2.1 0],
       ["**Audio:** " ++ basename audio_path])
    | none =>
      (e4, [.importClip audio_path],
       ["**Audio:** FAILED to import " ++ audio_path])

/-- Assembly phase of `build_timeline` (`composite.py` lines 91-161):
video-track selection (creating "V1" when none exists), sequential
placement, optional transitions, optional audio. -/
def buildAssemble (args : BuildArgs) (log : List String)
    (imported : List (String × Nat)) (e : Engine) (trace : List Call) : BuildOut :=
  if imported.isEmpty then ⟨.errNoneAvailable log, e, trace, []⟩
  else
    let vt := pickVideoTrack e trace
    let vid := vt.1
    let log2 := log ++ ["**Target track:** id=" ++ toString vid]
    let pp := placeLoop vid vt.2.1 imported 0
    let log3 := log2 ++ pp.log
    if pp.placed.isEmpty then ⟨.errNonePlaced log3, pp.engine, vt.2.2 ++ pp.trace, []⟩
    else
      let log4 := log3 ++ ["**Sequenced:** " ++ toString pp.placed.length
        ++ " clips on track " ++ toString vid]
      let tr := transitionsPhase args.transition_frames pp.placed pp.engine
      let log5 := log4 ++ tr.2.2
      let au := audioPhase args.audio_path e.tracks tr.1
      ⟨.ok (log5 ++ au.2.2), au.1, vt.2.2 ++ pp.trace ++ tr.2.1 ++ au.2.1, pp.placed⟩

/-- Tool `build_timeline` (`composite.py` lines 18-163): sort the glob result
and run one snapshot-discovery import per file; when no import produced a
new id, fall back to the clips of the media-pool root folder, then
assemble.  The `bin_ids` list of the fallback log line renders naturals
where Python renders the corresponding numeric id strings. -/
def build_timeline (args : BuildArgs) (e : Engine) : BuildOut :=
  let files := sortFiles e.globFiles
  if files.isEmpty then ⟨.errNoFiles args.pattern args.video_dir, e, [], []⟩
  else
    let ip := importLoop e files
    let log1 : List String :=
      (if ip.imported.isEmpty then [] else
        ("**Import:** " ++ toString ip.imported.length ++ " new clips added")
          :: ip.imported.map (fun p => "  " ++ p.1 ++ " → bin_id " ++ toString p.2))
      ++ (if ip.alreadyPresent.isEmpty then [] else
        ["**Already in bin:** " ++ String.intercalate ", " ip.alreadyPresent])
    if ip.imported.isEmpty then
      let bin_ids := sortNat (ip.engine.folderClipIds "-1")
      if bin_ids.isEmpty then ⟨.errNoBin, ip.engine, ip.trace, []⟩
      else
        let imported2 := bin_ids.enum.map (fun p =>
          (if p.1 < files.length then basename (files.getD p.1 "")
           else "clip-" ++ toString p.2, p.2))
        buildAssemble args
          (log1 ++ ["**Using existing bin clips:** " ++ toString bin_ids])
          imported2 ip.engine ip.trace
    else buildAssemble args log1 ip.imported ip.engine ip.trace

/-- The bin id of an insert call, when the call is an insert. -/
def Call.insertBin : Call → Option Nat
  | .insertClip b _ _ => some b
  | _ => none

/-- The position of an insert call, when the call is an insert. -/
def Call.insertAt : Call → Option Nat
  | .insertClip _ _ p => some p
  | _ => none

/-- The operands of a transition call, when the call is a transition. -/
def Call.mixOf : Call → Option (Nat × Nat × Int)
  | .addMix a b d => some (a, b, d)
  | _ => none

/-- Engine for the C6 witness: the first insert succeeds as clip 10 but
reports duration 0, the second as clip 11 with duration 50. -/
def cx6wEngine : Engine :=
  { binClips := [], tracks := [], timeline := [], globFiles := [],
    importScript := [], insertScript := [some (10, 0), some (11, 50)], mixScript := [],
    infoFail := [], nextTrackId := 1 }

/-- Engine for the C6 counterexample; the single imports and inserts are
scripted so that the first placed clip reports duration 0. -/
def cx6Engine : Engine :=
  { binClips := [], tracks := [⟨1, 0, false, "V1"⟩], timeline := [],
    globFiles := ["/v/a.mp4", "/v/b.mp4"], importScript := [[1], [2]],
    insertScript := [some (10, 0), some (11, 50)], mixScript := [true],
    infoFail := [], nextTrackId := 2 }

/-- Caller arguments A for the C6 counterexample. -/
def cx6ArgsA : BuildArgs := ⟨"/v", "*.mp4", "", 7, "scenes"⟩

/-- Caller arguments B for the C6 counterexample: every caller-settable
parameter other than the audio option differs from A. -/
def cx6ArgsB : BuildArgs := ⟨"/other", "*.avi", "", 999, "alt"⟩

/-- Caller arguments shared by the C7 scenario runs: no audio, default
transition duration. -/
def cx7Args : BuildArgs := ⟨"/v", "*.mp4", "", 13, "scenes"⟩

/-- Engine for the C7 witness: the import response creates nothing (the
file is already present), but two clips sit in the media-pool root
folder. -/
def cx7wEngine : Engine :=
  { binClips := [(5, "-1"), (3, "-1")], tracks := [⟨1, 0, false, "V1"⟩],
    timeline := [], globFiles := ["/v/a.mp4"], importScript := [[]],
    insertScript := [some (10, 50), some (11, 60)], mixScript := [true],
    infoFail := [], nextTrackId := 2 }

/-- Engine for the C7 counterexample: zero imports succeed, the root
folder is empty, but the pool does hold a clip — clip 5 lives in folder
"2". -/
def cx7Engine : Engine :=
  { binClips := [(5, "2")], tracks := [⟨1, 0, false, "V1"⟩], timeline := [],
    globFiles := ["/v/a.mp4"], importScript := [[]], insertScript := [],
    mixScript := [], infoFail := [], nextTrackId := 2 }

/-- Caller arguments for the C8 counterexample. -/
def cx8Args : BuildArgs := ⟨"/v", "*.mp4", "", 13, "scenes"⟩

/-- Engine A for the C8 counterexample: three clips import and place
successfully; the first of the two pairwise transitions fails. -/
def cx8EngineA : Engine :=
  { binClips := [], tracks := [⟨1, 0, false, "V1"⟩], timeline := [],
    globFiles := ["/v/a.mp4", "/v/b.mp4", "/v/c.mp4"],
    importScript := [[1], [2], [3]],
    insertScript := [some (10, 50), some (11, 60), some (12, 70)],
    mixScript := [false, true], infoFail := [], nextTrackId := 2 }

/-- Engine B for the C8 counterexample: identical to A except that the
second pairwise transition fails instead of the first. -/
def cx8EngineB : Engine :=
  { binClips := [], tracks := [⟨1, 0, false, "V1"⟩], timeline := [],
    globFiles := ["/v/a.mp4", "/v/b.mp4", "/v/c.mp4"],
    importScript := [[1], [2], [3]],
    insertScript := [some (10, 50), some (11, 60), some (12, 70)],
    mixScript := [true, false], infoFail := [], nextTrackId := 2 }

/-! ## Checkpoint Manager (§4.4): `checkpoints.py`

The project manager of the external engine is modelled by a world holding
the in-memory project (abstract content plus current file path), the
on-disk project files, and the module-level `_checkpoints` registry
(an insertion-ordered label-to-path dict).  Project content is abstracted
as a natural number. -/

/-- The live project: in-memory state and current file path ("" when the
project was never saved). -/
structure Project where
  live : Nat
  path : String
deriving DecidableEq, Repr

/-- World state of the checkpoint tools. -/
structure CkptWorld where
  proj : Project
  fs : List (String × Nat)
  registry : List (String × String)
  now : Nat
deriving DecidableEq, Repr

/-- Python's `os.path.splitext`: split at the last dot of the final path
component, unless every character of the component before that dot is
itself a dot (leading dots are not an extension). -/
def splitext (p : String) : String × String :=
  let cs := p.data
  let n := cs.length
  let sep : Int := match cs.reverse.indexOf? '/' with
    | some k => (n : Int) - 1 - k
    | none => -1
  let dot : Int := match cs.reverse.indexOf? '.' with
    | some k => (n : Int) - 1 - k
    | none => -1
  if sep < dot then
    if (List.range n).any (fun i => decide (sep < (i : Int)) && decide ((i : Int) < dot)
        && decide (cs.getD i '.' ≠ '.')) then
      (⟨cs.take dot.toNat⟩, ⟨cs.drop dot.toNat⟩)
    else (p, "")
  else (p, "")

/-- The snapshot location of `checkpoint_save` (`checkpoints.py` lines
35-36): `base + "__" + label + ext`. -/
def ckptPath (orig label : String) : String :=
  (splitext orig).1 ++ "__" ++ label ++ (splitext orig).2

/-- Engine call `Project.SaveAs(path)`: writes the live content to `path` and makes
`path` the project's current path.  On a writable filesystem the call
succeeds, so the modelled call always returns `true`. -/
def CkptWorld.saveAs (w : CkptWorld) (p : String) : Bool × CkptWorld :=
  (true, { w with fs := dictSet w.fs p w.proj.live, proj := { w.proj with path := p } })

/-- A workflow mutation of the live session between checkpoint calls: it
changes the in-memory project state only (files and registry untouched). -/
def mutLive (f : Nat → Nat) (w : CkptWorld) : CkptWorld :=
  { w with proj := { w.proj with live := f w.proj.live } }

/-- Outcome of `checkpoint_save`; one constructor per `return` statement
(`errSaveFailed` mirrors the failed-`SaveAs` return, unreachable in the
model's always-writable filesystem). -/
inductive SaveResult where
  | errNoPath
  | errSaveFailed (path : String)
  | saved (path : String)
deriving DecidableEq, Repr

/-- Tool `checkpoint_save(label)` (`checkpoints.py` lines 18-48): refuse when
the project has no path; synthesize a clock label when none is given;
`SaveAs` to the derived checkpoint path, re-`SaveAs` to the original path
(so work continues on the original), and register label → path. -/
def checkpoint_save (w : CkptWorld) (label : String) : SaveResult × CkptWorld :=
  let orig_path := w.proj.path
  if orig_path = "" then (.errNoPath, w)
  else
    let lab := if label = "" then "ckpt-" ++ toString w.now else label
    let cp := ckptPath orig_path lab
    let s1 := w.saveAs cp
    if !s1.1 then (.errSaveFailed cp, s1.2)
    else
      let s2 := s1.2.saveAs orig_path
      (.saved cp, { s2.2 with registry := dictSet s2.2.registry lab cp })

/-- Outcome of `checkpoint_restore`; one constructor per `return`
statement (`errLoadFailed` mirrors the `LoadProject is None` return,
unreachable in the model once the file exists). -/
inductive RestoreResult where
  | errNoCheckpoints
  | errUnknown (label : String) (available : List String)
  | errFileMissing (path : String)
  | errLoadFailed (path : String)
  | restored (label : String) (path : String)
deriving DecidableEq, Repr

/-- Tool `checkpoint_restore(label)` (`checkpoints.py` lines 51-82): refuse on
an empty registry; resolve a given label through the registry (unknown →
error listing the available labels) and an empty label to
`list(_checkpoints.keys())[-1]`; refuse when the snapshot file no longer
exists; otherwise `LoadProject` the snapshot as the new live state. -/
def checkpoint_restore (w : CkptWorld) (label : String) : RestoreResult × CkptWorld :=
  if w.registry.isEmpty then (.errNoCheckpoints, w)
  else
    let resolved : Option (String × String) :=
      if label = "" then
        match (w.registry.map Prod.fst).getLast? with
        | some l => (dictGet w.registry l).map (fun p => (l, p))
        | none => none
      else (dictGet w.registry label).map (fun p => (label, p))
    match resolved with
    | none => (.errUnknown label (w.registry.map Prod.fst), w)
    | some lp =>
      if (dictGet w.fs lp.2).isNone then (.errFileMissing lp.2, w)
      else
        match dictGet w.fs lp.2 with
        | some c => (.restored lp.1 lp.2, { w with proj := { live := c, path := lp.2 } })
        | none => (.errLoadFailed lp.2, w)

/-- World for the C2 witness: a saved project with content 10. -/
def cx2World : CkptWorld :=
  { proj := ⟨10, "/p/proj.kdenlive"⟩, fs := [("/p/proj.kdenlive", 10)],
    registry := [], now := 99 }

/-- World for the C9 witness: one registered checkpoint "x" whose
snapshot file holds content 7. -/
def cx9wWorld : CkptWorld :=
  { proj := ⟨42, "/p/proj.kdenlive"⟩,
    fs := [("/p/proj.kdenlive", 42), ("/p/proj__x.kdenlive", 7)],
    registry := [("x", "/p/proj__x.kdenlive")], now := 99 }

/-- Initial world for the C9 counterexample: a saved project, no
checkpoints yet. -/
def cx9World : CkptWorld :=
  { proj := ⟨10, "/p/proj.kdenlive"⟩, fs := [("/p/proj.kdenlive", 10)],
    registry := [], now := 99 }

/-- World after saving checkpoints "a" then "b". -/
def cx9Step2 : CkptWorld := (checkpoint_save (checkpoint_save cx9World "a").2 "b").2

/-- World after additionally re-saving checkpoint "a" — the most recent
registration is for label "a". -/
def cx9Step3 : CkptWorld := (checkpoint_save cx9Step2 "a").2

/-! ## Theorems

Proof section: the claim theorems with their witnesses and
counterexamples, and the supporting lemmas. -/

theorem dictGet_dictSet_self {α : Type} (l : List (String × α)) (k : String) (v : α) :
    dictGet (dictSet l k v) k = some v := by
  induction l with
  | nil => simp [dictGet, dictSet]
  | cons hd t ih =>
    obtain ⟨a, b⟩ := hd
    by_cases h : a = k
    · simp [dictGet, dictSet, h]
    · simp [dictGet, dictSet, h, ih]

theorem dictGet_dictSet_ne {α : Type} (l : List (String × α)) (k k' : String) (v : α)
    (h : k' ≠ k) : dictGet (dictSet l k v) k' = dictGet l k' := by
  have hk : ¬ k = k' := fun hh => h hh.symm
  induction l with
  | nil => simp [dictGet, dictSet, hk]
  | cons hd t ih =>
    obtain ⟨a, b⟩ := hd
    by_cases ha : a = k
    · subst ha
      simp [dictGet, dictSet, hk]
    · by_cases ha' : a = k'
      · simp [dictGet, dictSet, ha, ha', h]
      · simp [dictGet, dictSet, ha, ha', ih]

theorem sortNat_eq_nil_iff (l : List Nat) : sortNat l = [] ↔ l = [] := by
  constructor
  · intro h
    have hp := List.perm_insertionSort (α := Nat) (· ≤ ·) l
    rw [sortNat] at h
    rw [h] at hp
    exact hp.symm.eq_nil
  · intro h; subst h; rfl

theorem mem_sortNat {x : Nat} {l : List Nat} : x ∈ sortNat l ↔ x ∈ l :=
  (List.perm_insertionSort (α := Nat) (· ≤ ·) l).mem_iff

theorem sortNat_head_le {l : List Nat} {m : Nat} {t : List Nat}
    (h : sortNat l = m :: t) : ∀ x ∈ l, m ≤ x := by
  intro x hx
  have hs : List.Sorted (· ≤ ·) (sortNat l) :=
    List.sorted_insertionSort (· ≤ ·) l
  rw [h] at hs
  have hx' : x ∈ sortNat l := mem_sortNat.mpr hx
  rw [h] at hx'
  rcases List.mem_cons.mp hx' with hxm | hxt
  · exact le_of_eq hxm.symm
  · exact List.rel_of_sorted_cons hs x hxt

theorem discoverNewResource_min (before after : List Nat)
    (h : newIds before after ≠ []) :
    ∃ m, discoverNewResource before after = some m ∧
      m ∈ newIds before after ∧ ∀ y ∈ newIds before after, m ≤ y := by
  cases hs : sortNat (newIds before after) with
  | nil => exact absurd ((sortNat_eq_nil_iff _).mp hs) h
  | cons m t =>
    refine ⟨m, ?_, ?_, sortNat_head_le hs⟩
    · rw [discoverNewResource, hs]; rfl
    · have : m ∈ sortNat (newIds before after) := by rw [hs]; exact List.mem_cons_self m t
      exact mem_sortNat.mp this

theorem Engine.addProjectClip_timeline (e : Engine) :
    e.addProjectClip.timeline = e.timeline := by
  unfold Engine.addProjectClip
  cases e.importScript <;> rfl

theorem Engine.addProjectClip_insertScript (e : Engine) :
    e.addProjectClip.insertScript = e.insertScript := by
  unfold Engine.addProjectClip
  cases e.importScript <;> rfl

theorem Engine.deleteClip_insertScript (e : Engine) (cid : Nat) :
    (e.deleteClip cid).insertScript = e.insertScript := rfl

theorem Engine.deleteClip_timeline (e : Engine) (cid : Nat) :
    (e.deleteClip cid).timeline = e.timeline.filter (fun c => c.id != cid) := rfl

theorem Engine.insertClip_fail (e : Engine) (binId track pos : Nat)
    (h : e.insertScript = [] ∨ e.insertScript.head? = some none) :
    (e.insertClip binId track pos).1 = -1
    ∧ (e.insertClip binId track pos).2.timeline = e.timeline := by
  rcases h with h | h
  · rw [Engine.insertClip, h]
    exact ⟨rfl, rfl⟩
  · cases hs : e.insertScript with
    | nil =>
      rw [hs] at h
      simp [List.head?] at h
    | cons a t =>
      rw [hs] at h
      simp [List.head?] at h
      subst h
      rw [Engine.insertClip, hs]
      exact ⟨rfl, rfl⟩

theorem Engine.insertClip_succeed (e : Engine) (binId track pos cid d : Nat)
    (h : e.insertScript.head? = some (some (cid, d))) :
    e.insertClip binId track pos =
      ((cid : Int), { e with insertScript := e.insertScript.tail,
                             timeline := e.timeline ++ [⟨cid, track, pos, d, ""⟩] }) := by
  cases hs : e.insertScript with
  | nil =>
    rw [hs] at h
    simp [List.head?] at h
  | cons a t =>
    rw [hs] at h
    simp [List.head?] at h
    subst h
    rw [Engine.insertClip, hs]
    rfl

/-- C1: Resource discovery is deterministic: when the after-minus-before
difference contains exactly one identifier, that identifier is returned;
when the difference is empty, failure (`none`, the `NotFound` outcome) is
reported; when it contains several identifiers, the numerically lowest is
returned.  `discoverNewResource` is a pure function of the two snapshots,
so repeated runs on the same input sets return the same element. -/
theorem discovery_deterministic (before after : List Nat) :
    (∀ x, (∀ y, y ∈ newIds before after ↔ y = x) →
        discoverNewResource before after = some x)
    ∧ (newIds before after = [] → discoverNewResource before after = none)
    ∧ (newIds before after ≠ [] →
        ∃ m, discoverNewResource before after = some m ∧
          m ∈ newIds before after ∧ ∀ y ∈ newIds before after, m ≤ y) := by
  refine ⟨?_, ?_, discoverNewResource_min before after⟩
  · intro x hx
    have hne : newIds before after ≠ [] := by
      intro h
      have hmem := (hx x).mpr rfl
      rw [h] at hmem
      exact absurd hmem (List.not_mem_nil x)
    obtain ⟨m, hm, hmem, _⟩ := discoverNewResource_min before after hne
    rw [hm, (hx m).mp hmem]
  · intro h
    simp [discoverNewResource, h, sortNat]

/-- Witness for C1 at concrete snapshots: a singleton difference, an empty
difference, and a three-element difference whose minimum is returned. -/
theorem discovery_deterministic_witness :
    discoverNewResource [1, 2] [1, 2, 5] = some 5
    ∧ discoverNewResource [1, 2] [1, 2] = none
    ∧ ∃ m, discoverNewResource [3] [9, 7, 3, 8] = some m ∧
        m ∈ newIds [3] [9, 7, 3, 8] ∧ ∀ y ∈ newIds [3] [9, 7, 3, 8], m ≤ y := by
  refine ⟨(discovery_deterministic [1, 2] [1, 2, 5]).1 5 ?_,
          (discovery_deterministic [1, 2] [1, 2]).2.1 rfl,
          (discovery_deterministic [3] [9, 7, 3, 8]).2.2 (by decide)⟩
  intro y
  rw [show newIds [1, 2] [1, 2, 5] = [5] from rfl]
  exact List.mem_singleton

/-- C3 (amended): with the first video track selected, an out-of-bounds
1-based ordinal on a non-empty track yields the out-of-range error with an
unchanged engine and an empty mutating-call trace; on an empty track any
ordinal yields the empty-track error, likewise with zero mutating calls. -/
theorem replace_scene_failfast_ordinal (e : Engine) (vid : Nat) (n : Int) (f : String)
    (hv : selectVideoTrack e.tracks = some vid) :
    (e.clipsOnTrack vid = [] → replace_scene e n f = ⟨.errEmptyTrack, e, []⟩)
    ∧ (e.clipsOnTrack vid ≠ [] →
        (n < 1 ∨ ((e.clipsOnTrack vid).length : Int) < n) →
        replace_scene e n f = ⟨.errOutOfRange n (e.clipsOnTrack vid).length, e, []⟩) := by
  constructor
  · intro hemp
    simp [replace_scene, hv, hemp]
  · intro hne hoob
    have hemp : (e.clipsOnTrack vid).isEmpty = false := by
      cases hcl : e.clipsOnTrack vid with
      | nil => exact absurd hcl hne
      | cons a t => rfl
    have hcond : (n - 1 < 0 ∨ ((e.clipsOnTrack vid).length : Int) ≤ n - 1) := by omega
    simp [replace_scene, hv, hemp, hcond]
    intro h1 h2
    exfalso
    omega

/-- Witness for C3 (amended), ordinal 7 on a one-clip track. -/
theorem replace_scene_failfast_ordinal_witness :
    cx3aEngine.clipsOnTrack 1 ≠ []
    ∧ ((7 : Int) < 1 ∨ ((cx3aEngine.clipsOnTrack 1).length : Int) < 7)
    ∧ replace_scene cx3aEngine 7 "/new.mp4"
        = ⟨.errOutOfRange 7 (cx3aEngine.clipsOnTrack 1).length, cx3aEngine, []⟩ :=
  ⟨by decide, by decide,
   (replace_scene_failfast_ordinal cx3aEngine 1 7 "/new.mp4" rfl).2 (by decide) (by decide)⟩

/-- C4: when resource discovery for the new file yields no new identifier,
`replace_scene` aborts with the import-failure outcome before any timeline
mutation: the trace holds only the import call (no delete, insert or
resize) and the timeline — including the original item's position and
duration — is unchanged. -/
theorem replace_scene_aborts_before_delete (e : Engine) (vid : Nat) (n : Int) (f : String)
    (hv : selectVideoTrack e.tracks = some vid)
    (hne : (e.clipsOnTrack vid).isEmpty = false)
    (hin : 1 ≤ n ∧ n ≤ ((e.clipsOnTrack vid).length : Int))
    (hdisc : discoverNewResource e.allClipIds e.addProjectClip.allClipIds = none) :
    replace_scene e n f = ⟨.errImportFailed f, e.addProjectClip, [.importClip f]⟩
    ∧ (replace_scene e n f).engine.timeline = e.timeline := by
  have hcond : ¬ (n - 1 < 0 ∨ ((e.clipsOnTrack vid).length : Int) ≤ n - 1) := by
    push_neg
    omega
  have h1 : replace_scene e n f = ⟨.errImportFailed f, e.addProjectClip, [.importClip f]⟩ := by
    simp [replace_scene, hv, hne, hcond, replaceCore, hdisc]
    omega
  refine ⟨h1, ?_⟩
  rw [h1]
  exact e.addProjectClip_timeline

/-- Witness for C4: the failed-import run leaves the one-clip timeline
untouched and issues no destructive call. -/
theorem replace_scene_aborts_before_delete_witness :
    replace_scene cx4Engine 1 "/f.mp4"
      = ⟨.errImportFailed "/f.mp4", cx4Engine.addProjectClip, [.importClip "/f.mp4"]⟩
    ∧ (replace_scene cx4Engine 1 "/f.mp4").engine.timeline = cx4Engine.timeline :=
  replace_scene_aborts_before_delete cx4Engine 1 1 "/f.mp4" rfl rfl (by decide) rfl

/-- C5: when the insertion of the replacement fails after the old item was
deleted, `replace_scene` reports the partial state explicitly (the
deleted-but-not-replaced error naming the scene) and performs no further
mutation: the trace ends at the failed insert and the final timeline is
the original minus the deleted item. -/
theorem replace_scene_partial_state_reported (e : Engine) (vid : Nat) (n : Int)
    (f : String) (b : Nat)
    (hv : selectVideoTrack e.tracks = some vid)
    (hne : (e.clipsOnTrack vid).isEmpty = false)
    (hin : 1 ≤ n ∧ n ≤ ((e.clipsOnTrack vid).length : Int))
    (hdisc : discoverNewResource e.allClipIds e.addProjectClip.allClipIds = some b)
    (hins : e.insertScript = [] ∨ e.insertScript.head? = some none) :
    (replace_scene e n f).result = .errDeletedNotInserted n
    ∧ (replace_scene e n f).result.renderErr
        = some ("ERROR: Deleted scene " ++ toString n ++ " but failed to insert replacement.")
    ∧ (replace_scene e n f).trace
        = [.importClip f,
           .deleteClip ((e.clipsOnTrack vid).getD (n - 1).toNat dummyClip).id,
           .insertClip b vid
             (recordedStart e ((e.clipsOnTrack vid).getD (n - 1).toNat dummyClip).id)]
    ∧ (replace_scene e n f).engine.timeline
        = e.timeline.filter
            (fun c => c.id != ((e.clipsOnTrack vid).getD (n - 1).toNat dummyClip).id) := by
  have hcond : ¬ (n - 1 < 0 ∨ ((e.clipsOnTrack vid).length : Int) ≤ n - 1) := by
    push_neg
    omega
  have hrs : replace_scene e n f
      = replaceCore e vid ((e.clipsOnTrack vid).getD (n - 1).toNat dummyClip) n f := by
    simp [replace_scene, hv, hne, hcond]
    intro hx
    exfalso
    omega
  have he2 : ∀ cid : Nat, ((e.addProjectClip).deleteClip cid).insertScript = e.insertScript := by
    intro cid
    rw [Engine.deleteClip_insertScript, Engine.addProjectClip_insertScript]
  have hfail := Engine.insertClip_fail
    ((e.addProjectClip).deleteClip ((e.clipsOnTrack vid).getD (n - 1).toNat dummyClip).id)
    b vid (recordedStart e ((e.clipsOnTrack vid).getD (n - 1).toNat dummyClip).id)
    (by rw [he2]; exact hins)
  have hneg : (((e.addProjectClip).deleteClip
      ((e.clipsOnTrack vid).getD (n - 1).toNat dummyClip).id).insertClip
      b vid (recordedStart e ((e.clipsOnTrack vid).getD (n - 1).toNat dummyClip).id)).1 < 0 := by
    rw [hfail.1]
    decide
  have hcore : replaceCore e vid ((e.clipsOnTrack vid).getD (n - 1).toNat dummyClip) n f
      = ⟨.errDeletedNotInserted n,
         (((e.addProjectClip).deleteClip
             ((e.clipsOnTrack vid).getD (n - 1).toNat dummyClip).id).insertClip
             b vid (recordedStart e ((e.clipsOnTrack vid).getD (n - 1).toNat dummyClip).id)).2,
         [.importClip f,
          .deleteClip ((e.clipsOnTrack vid).getD (n - 1).toNat dummyClip).id,
          .insertClip b vid
            (recordedStart e ((e.clipsOnTrack vid).getD (n - 1).toNat dummyClip).id)]⟩ := by
    simp only [replaceCore, hdisc]
    rw [if_pos hneg]
  rw [hrs, hcore]
  refine ⟨rfl, rfl, rfl, ?_⟩
  rw [hfail.2, Engine.deleteClip_timeline, Engine.addProjectClip_timeline]

/-- Witness for C5: the failed-after-delete run reports the partial state. -/
theorem replace_scene_partial_state_reported_witness :
    (1 ≤ (1 : Int) ∧ 1 ≤ ((cx5Engine.clipsOnTrack 1).length : Int))
    ∧ (replace_scene cx5Engine 1 "/f.mp4").result = .errDeletedNotInserted 1
    ∧ (replace_scene cx5Engine 1 "/f.mp4").result.renderErr
        = some ("ERROR: Deleted scene " ++ toString (1 : Int)
            ++ " but failed to insert replacement.") :=
  ⟨by decide,
   (replace_scene_partial_state_reported cx5Engine 1 1 "/f.mp4" 9 rfl rfl (by decide) rfl
      (Or.inr rfl)).1,
   (replace_scene_partial_state_reported cx5Engine 1 1 "/f.mp4" 9 rfl rfl (by decide) rfl
      (Or.inr rfl)).2.1⟩

/-- C3 counterexample: with the selected container empty (zero items) and
ordinal 1 — which is greater than the number of items — `replace_scene`
returns the empty-track error, not the out-of-range error the claim
states (it still performs zero mutating calls). -/
theorem replace_scene_failfast_ordinal_cx :
    replace_scene cx3Engine 1 "/new.mp4" = ⟨.errEmptyTrack, cx3Engine, []⟩
    ∧ (cx3Engine.clipsOnTrack 1).length = 0
    ∧ ReplaceResult.errEmptyTrack ≠ ReplaceResult.errOutOfRange 1 0
    ∧ (ReplaceResult.errEmptyTrack.renderErr = some "ERROR: Video track is empty.") := by
  refine ⟨rfl, rfl, ?_, rfl⟩
  decide

/-- C10: when the info query for the selected existing item returns
nothing, `replace_scene` does not abort: the old position and duration
default to 0, the old item is still deleted, the replacement is inserted
at position 0, and no resize call is made (resize only happens for a
recorded duration greater than 0). -/
theorem replace_scene_missing_info_defaults (e : Engine) (vid : Nat) (n : Int)
    (f : String) (b cid d : Nat)
    (hv : selectVideoTrack e.tracks = some vid)
    (hne : (e.clipsOnTrack vid).isEmpty = false)
    (hin : 1 ≤ n ∧ n ≤ ((e.clipsOnTrack vid).length : Int))
    (hinfo : e.clipInfo ((e.clipsOnTrack vid).getD (n - 1).toNat dummyClip).id = none)
    (hdisc : discoverNewResource e.allClipIds e.addProjectClip.allClipIds = some b)
    (hins : e.insertScript.head? = some (some (cid, d))) :
    (replace_scene e n f).result
      = .ok n ("clip-" ++ toString ((e.clipsOnTrack vid).getD (n - 1).toNat dummyClip).id)
          ((e.clipsOnTrack vid).getD (n - 1).toNat dummyClip).id f cid 0
    ∧ (replace_scene e n f).trace
      = [.importClip f,
         .deleteClip ((e.clipsOnTrack vid).getD (n - 1).toNat dummyClip).id,
         .insertClip b vid 0]
    ∧ (replace_scene e n f).engine.timeline
      = e.timeline.filter
          (fun c => c.id != ((e.clipsOnTrack vid).getD (n - 1).toNat dummyClip).id)
        ++ [⟨cid, vid, 0, d, ""⟩] := by
  have hcond : ¬ (n - 1 < 0 ∨ ((e.clipsOnTrack vid).length : Int) ≤ n - 1) := by
    push_neg
    omega
  have hrs : replace_scene e n f
      = replaceCore e vid ((e.clipsOnTrack vid).getD (n - 1).toNat dummyClip) n f := by
    simp [replace_scene, hv, hne, hcond]
    intro hx
    exfalso
    omega
  have hstart : recordedStart e ((e.clipsOnTrack vid).getD (n - 1).toNat dummyClip).id = 0 := by
    rw [recordedStart, hinfo]
  have hdur : recordedDur e ((e.clipsOnTrack vid).getD (n - 1).toNat dummyClip).id = 0 := by
    rw [recordedDur, hinfo]
  have hname : recordedName e ((e.clipsOnTrack vid).getD (n - 1).toNat dummyClip).id
      = "clip-" ++ toString ((e.clipsOnTrack vid).getD (n - 1).toNat dummyClip).id := by
    rw [recordedName, hinfo]
  have he2 : ((e.addProjectClip).deleteClip
      ((e.clipsOnTrack vid).getD (n - 1).toNat dummyClip).id).insertScript
      = e.insertScript := by
    rw [Engine.deleteClip_insertScript, Engine.addProjectClip_insertScript]
  have hinsert := Engine.insertClip_succeed
    ((e.addProjectClip).deleteClip ((e.clipsOnTrack vid).getD (n - 1).toNat dummyClip).id)
    b vid 0 cid d (by rw [he2]; exact hins)
  have hcore : replaceCore e vid ((e.clipsOnTrack vid).getD (n - 1).toNat dummyClip) n f
      = ⟨.ok n ("clip-" ++ toString ((e.clipsOnTrack vid).getD (n - 1).toNat dummyClip).id)
            ((e.clipsOnTrack vid).getD (n - 1).toNat dummyClip).id f cid 0,
         { (e.addProjectClip).deleteClip ((e.clipsOnTrack vid).getD (n - 1).toNat dummyClip).id
             with
           insertScript := e.insertScript.tail,
           timeline := ((e.addProjectClip).deleteClip
               ((e.clipsOnTrack vid).getD (n - 1).toNat dummyClip).id).timeline
             ++ [⟨cid, vid, 0, d, ""⟩] },
         [.importClip f,
          .deleteClip ((e.clipsOnTrack vid).getD (n - 1).toNat dummyClip).id,
          .insertClip b vid 0]⟩ := by
    simp only [replaceCore, hdisc, hstart, hdur, hname, hinsert, he2]
    norm_num
  rw [hrs, hcore]
  refine ⟨rfl, rfl, ?_⟩
  simp only [Engine.deleteClip_timeline, Engine.addProjectClip_timeline]

/-- Witness for C10: the missing-info run deletes the old clip, inserts at
position 0 and performs no resize. -/
theorem replace_scene_missing_info_defaults_witness :
    cx10Engine.clipInfo ((cx10Engine.clipsOnTrack 1).getD ((1 : Int) - 1).toNat dummyClip).id
      = none
    ∧ (replace_scene cx10Engine 1 "/f.mp4").trace
      = [.importClip "/f.mp4",
         .deleteClip ((cx10Engine.clipsOnTrack 1).getD ((1 : Int) - 1).toNat dummyClip).id,
         .insertClip 9 1 0] :=
  ⟨rfl,
   (replace_scene_missing_info_defaults cx10Engine 1 1 "/f.mp4" 9 30 80 rfl rfl (by decide)
      rfl rfl rfl).2.1⟩

theorem importLoop_trace : ∀ (files : List String) (e : Engine),
    (importLoop e files).trace = files.map Call.importClip := by
  intro files
  induction files with
  | nil => intro e; rfl
  | cons f rest ih =>
    intro e
    simp only [importLoop]
    cases hd : discoverNewResource e.allClipIds e.addProjectClip.allClipIds <;>
      simp [hd, ih]

theorem filterMap_mixOf_importCalls (files : List String) :
    (files.map Call.importClip).filterMap Call.mixOf = [] := by
  induction files with
  | nil => rfl
  | cons f t ih => simp [Call.mixOf, ih]

theorem filterMap_insertBin_importCalls (files : List String) :
    (files.map Call.importClip).filterMap Call.insertBin = [] := by
  induction files with
  | nil => rfl
  | cons f t ih => simp [Call.insertBin, ih]

theorem placeLoop_trace_insertBin (vid : Nat) :
    ∀ (items : List (String × Nat)) (e : Engine) (pos : Nat),
      (placeLoop vid e items pos).trace.filterMap Call.insertBin
        = items.map Prod.snd := by
  intro items
  induction items with
  | nil => intro e pos; rfl
  | cons hd rest ih =>
    intro e pos
    obtain ⟨name, bid⟩ := hd
    by_cases h : (e.insertClip bid vid pos).1 < 0
    · simp [placeLoop, h, Call.insertBin, ih]
    · simp [placeLoop, h, Call.insertBin, ih]

theorem placeLoop_trace_no_mix (vid : Nat) :
    ∀ (items : List (String × Nat)) (e : Engine) (pos : Nat),
      (placeLoop vid e items pos).trace.filterMap Call.mixOf = [] := by
  intro items
  induction items with
  | nil => intro e pos; rfl
  | cons hd rest ih =>
    intro e pos
    obtain ⟨name, bid⟩ := hd
    by_cases h : (e.insertClip bid vid pos).1 < 0
    · simp [placeLoop, h, Call.mixOf, ih]
    · simp [placeLoop, h, Call.mixOf, ih]

theorem mixLoop_trace (tf : Int) :
    ∀ (pairs : List (Nat × Nat)) (e : Engine),
      (mixLoop tf e pairs).trace
        = pairs.map (fun p => Call.addMix p.1 p.2 tf) := by
  intro pairs
  induction pairs with
  | nil => intro e; rfl
  | cons hd rest ih =>
    intro e
    obtain ⟨a, b⟩ := hd
    simp [mixLoop, ih]

theorem filterMap_mixOf_mixCalls (tf : Int) (pairs : List (Nat × Nat)) :
    (pairs.map (fun p => Call.addMix p.1 p.2 tf)).filterMap Call.mixOf
      = pairs.map (fun p => (p.1, p.2, tf)) := by
  induction pairs with
  | nil => rfl
  | cons hd t ih => simp [Call.mixOf, ih]

theorem buildAssemble_result_ne_errNoBin (args : BuildArgs) (log : List String)
    (imported : List (String × Nat)) (e : Engine) (trace : List Call) :
    (buildAssemble args log imported e trace).result ≠ .errNoBin := by
  unfold buildAssemble
  repeat' split
  all_goals simp
  all_goals split <;> simp

theorem filterMap_insertBin_mixCalls (tf : Int) (pairs : List (Nat × Nat)) :
    (pairs.map (fun p => Call.addMix p.1 p.2 tf)).filterMap Call.insertBin = [] := by
  induction pairs with
  | nil => rfl
  | cons hd t ih => simp [Call.insertBin, ih]

theorem pickVideoTrack_trace_insertBin (e : Engine) (trace : List Call) :
    ((pickVideoTrack e trace).2.2).filterMap Call.insertBin
      = trace.filterMap Call.insertBin := by
  unfold pickVideoTrack
  cases selectVideoTrack e.tracks <;> simp [Call.insertBin]

theorem pickVideoTrack_trace_mixOf (e : Engine) (trace : List Call) :
    ((pickVideoTrack e trace).2.2).filterMap Call.mixOf
      = trace.filterMap Call.mixOf := by
  unfold pickVideoTrack
  cases selectVideoTrack e.tracks <;> simp [Call.mixOf]

theorem transitionsPhase_trace_insertBin (tf : Int) (placed : List Nat) (e : Engine) :
    ((transitionsPhase tf placed e).2.1).filterMap Call.insertBin = [] := by
  unfold transitionsPhase
  split
  · simp [mixLoop_trace, filterMap_insertBin_mixCalls]
    intro a b hmem
    rfl
  · rfl

theorem filterMap_mixOf_comp (tf : Int) (pairs : List (Nat × Nat)) :
    List.filterMap (Call.mixOf ∘ fun p => Call.addMix p.1 p.2 tf) pairs
      = pairs.map (fun p => (p.1, p.2, tf)) := by
  induction pairs with
  | nil => rfl
  | cons hd t ih => simp [List.filterMap_cons, Call.mixOf, ih]

theorem transitionsPhase_trace_mixOf (tf : Int) (placed : List Nat) (e : Engine) :
    ((transitionsPhase tf placed e).2.1).filterMap Call.mixOf
      = if 0 < tf ∧ 2 ≤ placed.length
        then (adjPairs placed).map (fun p => (p.1, p.2, tf))
        else [] := by
  unfold transitionsPhase
  split
  · rename_i h
    simp [h, mixLoop_trace, List.filterMap_map, filterMap_mixOf_comp]
  · rename_i h
    simp [h]

theorem audioPhase_trace_mixOf (ap : String) (ts : List Track) (e : Engine) :
    ((audioPhase ap ts e).2.1).filterMap Call.mixOf = [] := by
  unfold audioPhase
  by_cases hap : ap = ""
  · simp [hap]
  · rw [if_neg hap]
    cases hd : discoverNewResource e.allClipIds e.addProjectClip.allClipIds with
    | none => simp [hd, Call.mixOf]
    | some aid =>
      cases hf : firstAudioTrack ts with
      | none => simp [hd, hf, Call.mixOf]
      | some atid => simp [hd, hf, Call.mixOf]

theorem buildAssemble_trace_insertBin (args : BuildArgs) (log : List String)
    (imported : List (String × Nat)) (e : Engine) (trace : List Call)
    (ha : args.audio_path = "") :
    (buildAssemble args log imported e trace).trace.filterMap Call.insertBin
      = trace.filterMap Call.insertBin ++ imported.map Prod.snd := by
  unfold buildAssemble
  rw [ha]
  by_cases h1 : imported.isEmpty = true
  · rw [if_pos h1]
    rw [List.isEmpty_iff] at h1
    simp [h1]
  · rw [if_neg h1]
    by_cases h2 : (placeLoop (pickVideoTrack e trace).1
        (pickVideoTrack e trace).2.1 imported 0).placed.isEmpty = true
    · rw [if_pos h2]
      simp [List.filterMap_append, pickVideoTrack_trace_insertBin,
        placeLoop_trace_insertBin]
    · rw [if_neg h2]
      simp [audioPhase, List.filterMap_append, pickVideoTrack_trace_insertBin,
        placeLoop_trace_insertBin, transitionsPhase_trace_insertBin]

theorem buildAssemble_trace_mixOf (args : BuildArgs) (log : List String)
    (imported : List (String × Nat)) (e : Engine) (trace : List Call) :
    (buildAssemble args log imported e trace).trace.filterMap Call.mixOf
      = trace.filterMap Call.mixOf
        ++ (if 0 < args.transition_frames
              ∧ 2 ≤ (buildAssemble args log imported e trace).placed.length
            then (adjPairs (buildAssemble args log imported e trace).placed).map
                (fun p => (p.1, p.2, args.transition_frames))
            else []) := by
  unfold buildAssemble
  by_cases h1 : imported.isEmpty = true
  · rw [if_pos h1]
    simp
  · rw [if_neg h1]
    by_cases h2 : (placeLoop (pickVideoTrack e trace).1
        (pickVideoTrack e trace).2.1 imported 0).placed.isEmpty = true
    · rw [if_pos h2]
      rw [List.isEmpty_iff] at h2
      simp [List.filterMap_append, pickVideoTrack_trace_mixOf, placeLoop_trace_no_mix]
    · rw [if_neg h2]
      simp [List.filterMap_append, pickVideoTrack_trace_mixOf, placeLoop_trace_no_mix,
        transitionsPhase_trace_mixOf, audioPhase_trace_mixOf]

/-- C8 (amended): in a `build_timeline` run, a pairwise transition is
attempted exactly when the requested transition duration is positive and
more than one placement succeeded, and then between every adjacent pair of
successfully placed clips in placement order, regardless of individual
`add_mix` failures (the loop never aborts early; the equation holds for
every mix script).  Failed pairs are reflected only in the logged success
count, not logged individually. -/
theorem transitions_pairwise (args : BuildArgs) (e : Engine) :
    (build_timeline args e).trace.filterMap Call.mixOf
      = if 0 < args.transition_frames ∧ 2 ≤ (build_timeline args e).placed.length
        then (adjPairs (build_timeline args e).placed).map
            (fun p => (p.1, p.2, args.transition_frames))
        else [] := by
  by_cases h0 : sortFiles e.globFiles = []
  · simp [build_timeline, h0]
  · by_cases h1 : (importLoop e (sortFiles e.globFiles)).imported = []
    · by_cases h2 : sortNat ((importLoop e (sortFiles e.globFiles)).engine.folderClipIds "-1") = []
      · simp [build_timeline, List.isEmpty_iff, h0, h1, h2, importLoop_trace,
          filterMap_mixOf_importCalls]
        intro a ha
        rfl
      · simp [build_timeline, List.isEmpty_iff, h0, h1, h2, buildAssemble_trace_mixOf,
          importLoop_trace, filterMap_mixOf_importCalls]
        intro a ha
        rfl
    · simp [build_timeline, List.isEmpty_iff, h0, h1, buildAssemble_trace_mixOf,
        importLoop_trace, filterMap_mixOf_importCalls]
      intro a ha
      rfl

theorem placeLoop_trace_head (vid : Nat) (e : Engine) (name : String) (bid : Nat)
    (rest : List (String × Nat)) (pos : Nat) :
    (placeLoop vid e ((name, bid) :: rest) pos).trace.head?
      = some (.insertClip bid vid pos) := by
  by_cases hc : (e.insertClip bid vid pos).1 < 0 <;> simp [placeLoop, hc]

theorem placeLoop_trace_tail_success (vid : Nat) (e : Engine) (n1 : String) (b1 : Nat)
    (rest : List (String × Nat)) (pos cid d : Nat)
    (hins : e.insertScript.head? = some (some (cid, d))) :
    (placeLoop vid e ((n1, b1) :: rest) pos).trace.tail
      = (placeLoop vid (e.insertClip b1 vid pos).2 rest
          (pos + cursorAdvance (reportedDuration (e.insertClip b1 vid pos).2 cid))).trace := by
  have hinsert := Engine.insertClip_succeed e b1 vid pos cid d hins
  have hc : ¬ ((cid : Int) < 0) := by omega
  simp [placeLoop, hinsert, hc]

/-- C6 (amended): during sequential placement, after a successful insert
the cursor advances by the duration the engine actually reports for the
placed clip when that duration is positive, and by the fixed, hard-coded
default of 125 frames when the engine reports 0 or returns no info.  The
next insert call is issued at the advanced cursor.  No caller parameter of
`build_timeline` enters the placement loop's advance computation, so the
default is not configurable by the caller. -/
theorem cursor_advance_policy (vid : Nat) (e : Engine) (n1 n2 : String) (b1 b2 : Nat)
    (rest : List (String × Nat)) (pos cid d : Nat)
    (hins : e.insertScript.head? = some (some (cid, d))) :
    (placeLoop vid e ((n1, b1) :: (n2, b2) :: rest) pos).trace.head?
        = some (.insertClip b1 vid pos)
    ∧ (placeLoop vid e ((n1, b1) :: (n2, b2) :: rest) pos).trace.tail.head?
        = some (.insertClip b2 vid
            (pos + cursorAdvance (reportedDuration (e.insertClip b1 vid pos).2 cid)))
    ∧ (∀ dur : Nat, 0 < dur → cursorAdvance dur = dur)
    ∧ cursorAdvance 0 = 125 := by
  refine ⟨placeLoop_trace_head vid e n1 b1 _ pos, ?_, ?_, rfl⟩
  · rw [placeLoop_trace_tail_success vid e n1 b1 _ pos cid d hins]
    exact placeLoop_trace_head vid _ n2 b2 rest _
  · intro dur hd
    simp [cursorAdvance, hd]

/-- Witness for C6 (amended): with a reported duration of 0, the second
insert happens at the 125-frame default advance. -/
theorem cursor_advance_policy_witness :
    (placeLoop 1 cx6wEngine [("a", 1), ("b", 2)] 0).trace.tail.head?
      = some (.insertClip 2 1
          (0 + cursorAdvance (reportedDuration (cx6wEngine.insertClip 1 1 0).2 10)))
    ∧ 0 + cursorAdvance (reportedDuration (cx6wEngine.insertClip 1 1 0).2 10) = 125 :=
  ⟨(cursor_advance_policy 1 cx6wEngine "a" "b" 1 2 [] 0 10 0 rfl).2.1, by decide⟩

/-- C6 counterexample: the claim's "this default duration is configurable
by the caller" fails — two runs whose caller parameters differ in every
knob (directory, pattern, transition duration, folder name) both advance
the cursor past the 0-duration clip by exactly 125 frames: the second
insert lands at position 125 in both runs.  The default is the hard-coded
literal 125 of `composite.py` line 124; `build_timeline` has no parameter
for it. -/
theorem cursor_default_not_configurable_cx :
    cx6ArgsA ≠ cx6ArgsB
    ∧ (build_timeline cx6ArgsA cx6Engine).trace.filterMap Call.insertAt = [0, 125]
    ∧ (build_timeline cx6ArgsB cx6Engine).trace.filterMap Call.insertAt = [0, 125] := by
  refine ⟨by decide, rfl, rfl⟩

theorem filterMap_insertBin_comp (files : List String) :
    List.filterMap (Call.insertBin ∘ Call.importClip) files = [] := by
  induction files with
  | nil => rfl
  | cons f t ih => simp [List.filterMap_cons, Call.insertBin, ih]

/-- C7 (amended): when no file of the sorted glob list produced a newly
discovered resource, `build_timeline` falls back to the clips of the media
pool's root folder (id "-1"), in numeric order: when that root-folder list
is empty the run terminates with the no-clips failure, and when it is
non-empty the run does not terminate with that failure and issues exactly
one insert per root-folder clip, in numeric id order. -/
theorem zero_imports_fallback (args : BuildArgs) (e : Engine)
    (hfiles : sortFiles e.globFiles ≠ [])
    (himp : (importLoop e (sortFiles e.globFiles)).imported = [])
    (ha : args.audio_path = "") :
    (sortNat ((importLoop e (sortFiles e.globFiles)).engine.folderClipIds "-1") = [] →
        build_timeline args e
          = ⟨.errNoBin, (importLoop e (sortFiles e.globFiles)).engine,
             (importLoop e (sortFiles e.globFiles)).trace, []⟩)
    ∧ (sortNat ((importLoop e (sortFiles e.globFiles)).engine.folderClipIds "-1") ≠ [] →
        (build_timeline args e).result ≠ .errNoBin
        ∧ (build_timeline args e).trace.filterMap Call.insertBin
            = sortNat ((importLoop e (sortFiles e.globFiles)).engine.folderClipIds "-1")) := by
  constructor
  · intro hroot
    simp [build_timeline, List.isEmpty_iff, hfiles, himp, hroot, importLoop_trace]
  · intro hroot
    constructor
    · simp [build_timeline, List.isEmpty_iff, hfiles, himp, hroot]
      exact buildAssemble_result_ne_errNoBin _ _ _ _ _
    · simp [build_timeline, List.isEmpty_iff, hfiles, himp, hroot,
        buildAssemble_trace_insertBin, ha, importLoop_trace]
      rw [filterMap_insertBin_comp]
      have hcg : ∀ p ∈ (sortNat ((importLoop e
            (sortFiles e.globFiles)).engine.folderClipIds "-1")).enum,
          (Prod.snd ∘ fun p : Nat × Nat =>
            (if p.1 < (sortFiles e.globFiles).length
               then basename ((sortFiles e.globFiles)[p.1]?.getD "")
               else "clip-" ++ toString p.2, p.2)) p = Prod.snd p := by
        intro p hp
        rfl
      rw [List.map_congr_left hcg, List.enum_map_snd]
      simp

/-- Witness for C7 (amended): zero imports, non-empty root folder — the
run proceeds and inserts exactly the root-folder clips 3 and 5 in numeric
order. -/
theorem zero_imports_fallback_witness :
    (importLoop cx7wEngine (sortFiles cx7wEngine.globFiles)).imported = []
    ∧ (build_timeline cx7Args cx7wEngine).result ≠ .errNoBin
    ∧ (build_timeline cx7Args cx7wEngine).trace.filterMap Call.insertBin
        = sortNat ((importLoop cx7wEngine
            (sortFiles cx7wEngine.globFiles)).engine.folderClipIds "-1") :=
  ⟨rfl,
   ((zero_imports_fallback cx7Args cx7wEngine (by decide) rfl rfl).2 (by decide)).1,
   ((zero_imports_fallback cx7Args cx7wEngine (by decide) rfl rfl).2 (by decide)).2⟩

/-- C7 counterexample: the claim's fallback set is "the resources already
present in the target's pool", yet with the pool non-empty (clip 5, in a
non-root folder) and zero imports, `build_timeline` still fails with the
no-clips error: the code only consults the root folder
(`get_folder_clip_ids("-1")`), not the full pool. -/
theorem zero_imports_fallback_cx :
    (build_timeline cx7Args cx7Engine).result = .errNoBin
    ∧ cx7Engine.allClipIds = [5]
    ∧ cx7Engine.allClipIds ≠ [] :=
  ⟨rfl, rfl, by decide⟩

/-- C8 counterexample: the claim's "each pair's failure is logged
independently" fails for the full-assembly workflow — two runs in which
different pairs fail (first pair vs second pair) produce the same
`WorkflowOutcome` in every observable component (result with its log
lines, final engine state, call trace, placed list): the log only carries
the success count, so it cannot identify which pair failed. -/
theorem transitions_pairwise_cx :
    build_timeline cx8Args cx8EngineA = build_timeline cx8Args cx8EngineB
    ∧ cx8EngineA.mixScript = [false, true]
    ∧ cx8EngineB.mixScript = [true, false]
    ∧ cx8EngineA ≠ cx8EngineB :=
  ⟨rfl, rfl, rfl, by decide⟩

theorem dictSet_ne_nil {α : Type} (l : List (String × α)) (k : String) (v : α) :
    dictSet l k v ≠ [] := by
  cases l with
  | nil => simp [dictSet]
  | cons hd t =>
    obtain ⟨a, b⟩ := hd
    by_cases h : a = k <;> simp [dictSet, h]

theorem dictGet_isSome_of_mem_keys {α : Type} (l : List (String × α)) (k : String)
    (h : k ∈ l.map Prod.fst) : ∃ v, dictGet l k = some v := by
  induction l with
  | nil => simp at h
  | cons hd t ih =>
    obtain ⟨a, b⟩ := hd
    by_cases hk : a = k
    · exact ⟨b, by simp [dictGet, hk]⟩
    · have hmem : k ∈ t.map Prod.fst := by
        simp only [List.map_cons, List.mem_cons] at h
        rcases h with h | h
        · exact absurd h.symm hk
        · exact h
      obtain ⟨v, hv⟩ := ih hmem
      exact ⟨v, by simp [dictGet, hk, hv]⟩

/-- C2: checkpoint round-trip.  Immediately after `checkpoint_save(label)`
returns, the live project state and the canonical project path are
unchanged; the snapshot sits at the location derived from the canonical
path and the label, and the canonical location was re-saved with the live
content.  A later `checkpoint_restore(label)` — even after arbitrary
mutation of the live session — brings the live state back to the state at
save time. -/
theorem checkpoint_roundtrip (w : CkptWorld) (label : String) (f : Nat → Nat)
    (hp : w.proj.path ≠ "") (hl : label ≠ "") :
    (checkpoint_save w label).1 = .saved (ckptPath w.proj.path label)
    ∧ (checkpoint_save w label).2.proj.live = w.proj.live
    ∧ (checkpoint_save w label).2.proj.path = w.proj.path
    ∧ dictGet (checkpoint_save w label).2.fs (ckptPath w.proj.path label)
        = some w.proj.live
    ∧ dictGet (checkpoint_save w label).2.fs w.proj.path = some w.proj.live
    ∧ (checkpoint_restore (mutLive f (checkpoint_save w label).2) label).2.proj.live
        = w.proj.live := by
  have hsave : checkpoint_save w label
      = (.saved (ckptPath w.proj.path label),
         { proj := { live := w.proj.live, path := w.proj.path },
           fs := dictSet (dictSet w.fs (ckptPath w.proj.path label) w.proj.live)
                   w.proj.path w.proj.live,
           registry := dictSet w.registry label (ckptPath w.proj.path label),
           now := w.now }) := by
    simp [checkpoint_save, CkptWorld.saveAs, hp, hl]
  have hcp : dictGet (dictSet (dictSet w.fs (ckptPath w.proj.path label) w.proj.live)
      w.proj.path w.proj.live) (ckptPath w.proj.path label) = some w.proj.live := by
    by_cases hq : ckptPath w.proj.path label = w.proj.path
    · rw [hq, dictGet_dictSet_self]
    · rw [dictGet_dictSet_ne _ _ _ _ hq, dictGet_dictSet_self]
  rw [hsave]
  refine ⟨rfl, rfl, rfl, hcp, dictGet_dictSet_self _ _ _, ?_⟩
  have hreg : dictSet w.registry label (ckptPath w.proj.path label) ≠ [] :=
    dictSet_ne_nil _ _ _
  simp [checkpoint_restore, mutLive, List.isEmpty_iff, hreg, hl,
    dictGet_dictSet_self, hcp]

/-- Witness for C2: save under "snap", mutate the live state, restore —
the live state is 10 again, and right after the save it was still 10 with
the canonical path unchanged. -/
theorem checkpoint_roundtrip_witness :
    (checkpoint_save cx2World "snap").2.proj.live = 10
    ∧ (checkpoint_save cx2World "snap").2.proj.path = "/p/proj.kdenlive"
    ∧ (checkpoint_restore
        (mutLive (fun x => x + 7) (checkpoint_save cx2World "snap").2)
        "snap").2.proj.live = 10 :=
  ⟨(checkpoint_roundtrip cx2World "snap" (fun x => x + 7) (by decide) (by decide)).2.1,
   (checkpoint_roundtrip cx2World "snap" (fun x => x + 7) (by decide) (by decide)).2.2.1,
   (checkpoint_roundtrip cx2World "snap" (fun x => x + 7) (by decide)
      (by decide)).2.2.2.2.2⟩

/-- C9 (amended): restore resolution.  `checkpoint_restore` fails exactly
when the registry is empty, the given label is unknown, or the registered
snapshot file no longer exists; on success the target loads the snapshot
content as its new live state.  When no label is given, the label used is
the last key of the insertion-ordered registry — the most recently ADDED
label; re-saving an existing label updates its snapshot path but keeps its
registry position, so it does not become the no-label default. -/
theorem checkpoint_restore_resolution (w : CkptWorld) (label : String) :
    (w.registry = [] → checkpoint_restore w label = (.errNoCheckpoints, w))
    ∧ (w.registry ≠ [] → label ≠ "" → dictGet w.registry label = none →
        checkpoint_restore w label = (.errUnknown label (w.registry.map Prod.fst), w))
    ∧ (∀ p, w.registry ≠ [] → label ≠ "" → dictGet w.registry label = some p →
        dictGet w.fs p = none →
        checkpoint_restore w label = (.errFileMissing p, w))
    ∧ (∀ p c, w.registry ≠ [] → label ≠ "" → dictGet w.registry label = some p →
        dictGet w.fs p = some c →
        checkpoint_restore w label
          = (.restored label p, { w with proj := { live := c, path := p } }))
    ∧ (∀ lab, w.registry ≠ [] → (w.registry.map Prod.fst).getLast? = some lab →
        lab ≠ "" → checkpoint_restore w "" = checkpoint_restore w lab) := by
  refine ⟨?_, ?_, ?_, ?_, ?_⟩
  · intro hreg
    simp [checkpoint_restore, hreg]
  · intro hreg hl hget
    simp [checkpoint_restore, List.isEmpty_iff, hreg, hl, hget]
  · intro p hreg hl hget hfs
    simp [checkpoint_restore, List.isEmpty_iff, hreg, hl, hget, hfs]
  · intro p c hreg hl hget hfs
    simp [checkpoint_restore, List.isEmpty_iff, hreg, hl, hget, hfs]
  · intro lab hreg hlast hlab
    have hmem : lab ∈ w.registry.map Prod.fst := by
      obtain ⟨hne, heq⟩ :=
        List.mem_getLast?_eq_getLast (l := w.registry.map Prod.fst) hlast
      rw [heq]
      exact List.getLast_mem hne
    obtain ⟨v, hv⟩ := dictGet_isSome_of_mem_keys w.registry lab hmem
    simp [checkpoint_restore, List.isEmpty_iff, hreg, hlast, hlab, hv]

/-- Witness for C9 (amended): restoring "x" loads the snapshot content as
the new live state. -/
theorem checkpoint_restore_resolution_witness :
    cx9wWorld.registry ≠ []
    ∧ dictGet cx9wWorld.registry "x" = some "/p/proj__x.kdenlive"
    ∧ checkpoint_restore cx9wWorld "x"
        = (.restored "x" "/p/proj__x.kdenlive",
           { cx9wWorld with proj := { live := 7, path := "/p/proj__x.kdenlive" } }) :=
  ⟨by decide, rfl,
   (checkpoint_restore_resolution cx9wWorld "x").2.2.2.1 "/p/proj__x.kdenlive" 7
     (by decide) (by decide) rfl rfl⟩

/-- C9 counterexample: after saving "a", "b", then "a" again, the
most-recently-registered label is "a" (the third save registers it), yet
`checkpoint_restore` with no label restores "b": a Python dict keeps an
updated key at its original position, so `list(keys())[-1]` is the most
recently ADDED key, not the most recently registered one. -/
theorem checkpoint_restore_recency_cx :
    (checkpoint_save cx9Step2 "a").1 = .saved "/p/proj__a.kdenlive"
    ∧ cx9Step3.registry.map Prod.fst = ["a", "b"]
    ∧ (checkpoint_restore cx9Step3 "").1 = .restored "b" "/p/proj__b.kdenlive"
    ∧ ("b" : String) ≠ "a" :=
  ⟨rfl, rfl, rfl, by decide⟩
